import Mathlib

/-!
Shallow embedding of the chat core of `src/main.py` (FastAPI websocket relay with a
persistent chat-room store), together with theorems settling the specification claims.

Authoritative source embedded here: the `websocket_endpoint` handler and the
`chat_users` / `get_chat` HTTP endpoints of `src/main.py`.  Functions that live in
repository files not present under `src/` (`socket_manager.py`, `utils.py`, `deps.py`)
are modelled from the spec; each such definition carries a doc comment starting
`Modelled from the spec:`.
-/

set_option maxHeartbeats 1000000

namespace ChatApp

/-- A stored chat message (a document in a room's `messages` array).
Python dict keys `from` / `to` are rendered `msg_from` / `msg_to`. -/
structure Message where
  msg_from : String
  msg_to : String
  message : String
  time : Nat
  deriving Repr, DecidableEq, Inhabited

/-- A chat room document: `members` array and ordered `messages` array. -/
structure Room where
  members : List String
  messages : List Message
  deriving Repr, DecidableEq, Inhabited

/-- One element of `manager.authorized_connections`:
the dict `{'username': user, 'websocket': websocket}` appended in `websocket_endpoint`.
Connection handles (websockets) are opaque; we model them as `Nat`. -/
structure AuthEntry where
  username : String
  websocket : Nat
  deriving Repr, DecidableEq, Inhabited

/-- The server state visible to the embedded handlers: the connection manager's two
lists and the `chat_rooms` collection (a list of room documents in insertion order). -/
structure ServerState where
  active_connections : List Nat
  authorized_connections : List AuthEntry
  chat_rooms : List Room
  deriving Repr, DecidableEq, Inhabited

/-- An inbound websocket JSON frame, as `websocket_endpoint` discriminates it:
a frame whose keys contain `token`, or any other frame, which the authorized branch
reads as `{receiver, sender, message}`. -/
inductive Frame where
  | token (tok : String)
  | send (receiver sender message : String)
  deriving Repr, DecidableEq

/-- The observable outcome of processing one frame (one iteration of the
`while True` loop of `websocket_endpoint`): the successor state, the texts sent back
on this connection, the out-of-band pushes `(handle, text)` delivered to other
connections, and whether an exception other than `WebSocketDisconnect` propagated out
of the loop (terminating the handler task; the `try` block catches only
`WebSocketDisconnect`). -/
structure StepOutcome where
  state : ServerState
  replies : List String
  pushes : List (Nat × String)
  crashed : Bool
  deriving Repr, DecidableEq

/-- Mongo lookup `chat_rooms.find_one({'members': {'$all': [a, b]}})` used by
`get_chat`: the first room whose `members` array contains both `a` and `b`. -/
def find_room (store : List Room) (a b : String) : Option Room :=
  store.find? (fun r => r.members.contains a && r.members.contains b)

/-- Find-or-create-and-append into the `chat_rooms` store: locate the room for the
unordered pair `{sender, receiver}` and append `Message{from := sender, to := receiver,
message := text, time := now}`; create the room when absent. -/
def append_message (store : List Room) (sender receiver text : String) (now : Nat) :
    List Room :=
  let msg : Message := ⟨sender, receiver, text, now⟩
  match store.find? (fun r => r.members.contains sender && r.members.contains receiver) with
  | some _ =>
      store.map (fun r =>
        if r.members.contains sender && r.members.contains receiver then
          { r with messages := r.messages ++ [msg] }
        else r)
  | none => store ++ [⟨[sender, receiver], [msg]⟩]

/-- Modelled from the spec: `find_live_connection(identity)` of the Connection
Registry (`socket_manager.py` is not under `src/`): return some connection handle
currently authorized as `identity`, or none; the selection among several is
unspecified but deterministic, modelled as the first matching entry. -/
def find_live_connection (st : ServerState) (identity : String) : Option AuthEntry :=
  st.authorized_connections.find? (fun d => d.username == identity)

/-- Modelled from the spec: `manager.send_personal_message(receiver, sender, message)`
of `socket_manager.py` (not under `src/`).  Per the spec's Message Router: look up a
live connection for the receiver and, when found, push the text to it; and (as the
spec's design notes record of the original) always look up or create the chat room for
`{sender, receiver}` and append the message, regardless of live-delivery outcome. -/
def send_personal_message (st : ServerState) (receiver sender text : String)
    (now : Nat) : StepOutcome :=
  let push : List (Nat × String) :=
    match find_live_connection st receiver with
    | some d => [(d.websocket, text)]
    | none => []
  { state := { st with chat_rooms := append_message st.chat_rooms sender receiver text now },
    replies := [],
    pushes := push,
    crashed := false }

/-- Modelled from the spec: `manager.connect(websocket)` (`socket_manager.py` not
under `src/`): register the handle in the unauthenticated state. -/
def manager_connect (st : ServerState) (ws : Nat) : ServerState :=
  { st with active_connections := st.active_connections ++ [ws] }

/-- Modelled from the spec: `manager.disconnect(websocket)` (`socket_manager.py` not
under `src/`): `Registry.remove(handle)` deletes all registry state for the handle. -/
def manager_disconnect (st : ServerState) (ws : Nat) : ServerState :=
  { st with
    active_connections := st.active_connections.filter (fun h => h != ws),
    authorized_connections := st.authorized_connections.filter (fun d => d.websocket != ws) }

/-- One iteration of the `while True` loop of `websocket_endpoint` in `src/main.py`,
processing frame `f` received on connection `ws`.  `decode` is the Token Verifier
(`decode_token` of `deps.py`, not under `src/`), modelled from the spec as returning
the encoded identity or failing with `InvalidToken` (`none`); a failure is an
exception that is not `WebSocketDisconnect`, so it propagates (`crashed := true`)
without any reply or state change.

  - `'token' in data.keys()`: decode, append `{username, websocket}` to
    `manager.authorized_connections`, reply `"successful authorization"`.
  - otherwise, if no entry of `authorized_connections` has this websocket:
    reply `"websocket not authorized"`.
  - otherwise: read `receiver`, `sender`, `message` from the frame and call
    `manager.send_personal_message(receiver, sender, message)`. -/
def websocket_endpoint_step (decode : String → Option String) (ws : Nat)
    (st : ServerState) (f : Frame) (now : Nat) : StepOutcome :=
  match f with
  | .token tok =>
      match decode tok with
      | some user =>
          { state := { st with
              authorized_connections := st.authorized_connections ++ [⟨user, ws⟩] },
            replies := ["successful authorization"],
            pushes := [],
            crashed := false }
      | none =>
          { state := st, replies := [], pushes := [], crashed := true }
  | .send receiver sender message =>
      if st.authorized_connections.any (fun d => d.websocket == ws) then
        send_personal_message st receiver sender message now
      else
        { state := st, replies := ["websocket not authorized"], pushes := [], crashed := false }

/-- The `last_message` object returned by `chat_users` after
`del last_message['from'], last_message['to']` and setting `is_myself`. -/
structure LastMessage where
  message : String
  time : Nat
  is_myself : Bool
  deriving Repr, DecidableEq, Inhabited

/-- One element of the `chat_users` response:
`{'username': <counterpart>, 'last_message': <last message>}`. -/
structure ChatUserEntry where
  username : String
  last_message : LastMessage
  deriving Repr, DecidableEq, Inhabited

/-- The body of the `for chat in chats` loop of `chat_users`:
`chat['messages'][-1]` (IndexError on an empty list, modelled as `none`),
`is_myself := (last_message['from'] == user)`, and
`[el for el in chat['members'] if el != user][0]` (IndexError when no such member,
modelled as `none`). -/
def room_entry (user : String) (chat : Room) : Option ChatUserEntry :=
  match chat.messages.getLast? with
  | none => none
  | some lm =>
      match (chat.members.filter (fun el => el != user)).head? with
      | none => none
      | some peer => some ⟨peer, ⟨lm.message, lm.time, lm.msg_from == user⟩⟩

/-- The `for` loop of `chat_users` over the rooms returned by the Mongo query,
accumulating entries in order; a raised IndexError aborts the request (`none`). -/
def process_chats (user : String) : List Room → Option (List ChatUserEntry)
  | [] => some []
  | chat :: rest =>
      match room_entry user chat with
      | none => none
      | some e =>
          match process_chats user rest with
          | none => none
          | some l => some (e :: l)

/-- The `/api/chat_users` endpoint of `src/main.py`: query
`chat_rooms.find({'members': {'$all': [user]}})` (all rooms whose members contain
`user`, in store order), then build one entry per room. -/
def chat_users (store : List Room) (user : String) : Option (List ChatUserEntry) :=
  process_chats user (store.filter (fun r => r.members.contains user))

/-- A `{from, to, message}` tuple of the history read response. -/
structure HistoryMsg where
  msg_from : String
  msg_to : String
  message : String
  deriving Repr, DecidableEq, Inhabited

/-- Modelled from the spec: `get_messages_from_chat` of `utils.py` (not under
`src/`): returns the ordered message sequence of the room as `{from, to, message}`
tuples. -/
def get_messages_from_chat (r : Room) : List HistoryMsg :=
  r.messages.map (fun m => ⟨m.msg_from, m.msg_to, m.message⟩)

/-- The `/api/get_chat/{user2}` endpoint of `src/main.py`: find the room whose
members contain both `user` and `user2`; when `find_one` returns `None`, respond
`200` with `[]`; otherwise respond `200` with the room's messages. -/
def get_chat (store : List Room) (user2 user : String) : Nat × List HistoryMsg :=
  match find_room store user user2 with
  | none => (200, [])
  | some r => (200, get_messages_from_chat r)

/-! ## Theorems settling the claims -/

/-- Claim C1: the spec requires a send frame whose claimed `sender` differs from the
connection's authorized identity to be rejected with `SenderMismatch`, neither
forwarded nor persisted.  The code performs no such check: here connection `1` is
authorized as `"mallory"` and sends `{sender: "alice", receiver: "bob", message: "hi"}`;
the frame is routed — pushed to bob's connection `2` and persisted with
`from = "alice"` — and no error is replied. -/
theorem spoofed_sender_forwarded :
    websocket_endpoint_step (fun _ => none) 1
      ⟨[1, 2], [⟨"mallory", 1⟩, ⟨"bob", 2⟩], []⟩ (.send "bob" "alice" "hi") 3 =
      ⟨⟨[1, 2], [⟨"mallory", 1⟩, ⟨"bob", 2⟩],
        [⟨["alice", "bob"], [⟨"alice", "bob", "hi", 3⟩]⟩]⟩,
       [], [(2, "hi")], false⟩ := by
  decide

/-- Claim C2: a non-token frame received while the connection has no entry in
`authorized_connections` is answered with `"websocket not authorized"`, causes no
state change (in particular nothing is persisted), and is not pushed anywhere. -/
theorem unauthorized_send_rejected (decode : String → Option String) (ws : Nat)
    (st : ServerState) (receiver sender message : String) (now : Nat)
    (h : st.authorized_connections.any (fun d => d.websocket == ws) = false) :
    websocket_endpoint_step decode ws st (.send receiver sender message) now =
      ⟨st, ["websocket not authorized"], [], false⟩ := by
  simp [websocket_endpoint_step, h]

/-- Witness for `unauthorized_send_rejected` at a concrete unauthenticated state. -/
theorem unauthorized_send_rejected_witness :
    websocket_endpoint_step (fun _ => none) 0 ⟨[0], [], []⟩ (.send "bob" "alice" "hi") 0 =
      ⟨⟨[0], [], []⟩, ["websocket not authorized"], [], false⟩ :=
  unauthorized_send_rejected (fun _ => none) 0 ⟨[0], [], []⟩ "bob" "alice" "hi" 0 rfl

/-- Claim C6, counterexample: connection `0` is already authorized as `"alice"`;
a second valid token frame yields TWO registry entries for handle `0`, refuting
"at most one Authorization Entry per connection handle / re-authorization
overwrites". -/
theorem reauthorization_appends_cex :
    ((websocket_endpoint_step (fun _ => some "alice") 0
        ⟨[0], [⟨"alice", 0⟩], []⟩ (.token "tok2") 0).state.authorized_connections.filter
          (fun d => d.websocket == 0)).length = 2 := by
  decide

/-- Claim C6, amended: each successful token frame appends a fresh Authorization
Entry to `authorized_connections`; nothing is overwritten, so a handle presenting
several valid tokens accumulates several entries. -/
theorem authorize_appends (decode : String → Option String) (ws : Nat)
    (st : ServerState) (tok user : String) (now : Nat) (h : decode tok = some user) :
    (websocket_endpoint_step decode ws st (.token tok) now).state.authorized_connections =
      st.authorized_connections ++ [⟨user, ws⟩] := by
  simp [websocket_endpoint_step, h]

/-- Witness for `authorize_appends` at a concrete state and token. -/
theorem authorize_appends_witness :
    (websocket_endpoint_step (fun _ => some "alice") 0 ⟨[0], [], []⟩
        (.token "tok") 0).state.authorized_connections = [] ++ [⟨"alice", 0⟩] :=
  authorize_appends (fun _ => some "alice") 0 ⟨[0], [], []⟩ "tok" "alice" 0 rfl

/-- Claim C7: the room lookup of `get_chat` (Mongo `$all` containment) is
commutative in its two member arguments. -/
theorem find_room_comm (store : List Room) (a b : String) (_h : a ≠ b) :
    find_room store a b = find_room store b a := by
  unfold find_room
  have hp : (fun r : Room => r.members.contains a && r.members.contains b) =
      (fun r : Room => r.members.contains b && r.members.contains a) := by
    funext r
    exact Bool.and_comm _ _
  rw [hp]

/-- Witness for `find_room_comm` on a concrete store and distinct identities. -/
theorem find_room_comm_witness :
    find_room [⟨["alice", "bob"], []⟩] "alice" "bob" =
      find_room [⟨["alice", "bob"], []⟩] "bob" "alice" :=
  find_room_comm [⟨["alice", "bob"], []⟩] "alice" "bob" (by decide)

/-- Claim C9: when no stored room contains both the requester and `user2`,
`get_chat` responds with status 200 and the empty list. -/
theorem get_chat_no_room (store : List Room) (user2 user : String)
    (h : ∀ r ∈ store, (r.members.contains user && r.members.contains user2) = false) :
    get_chat store user2 user = (200, []) := by
  have hn : store.find? (fun r => r.members.contains user && r.members.contains user2) =
      none :=
    List.find?_eq_none.mpr (fun r hr => by
      show ¬(r.members.contains user && r.members.contains user2) = true
      rw [h r hr]
      exact Bool.false_ne_true)
  unfold get_chat find_room
  rw [hn]

/-- Witness for `get_chat_no_room`: a store holding only an {alice, bob} room,
queried for the pair {carol, dave}. -/
theorem get_chat_no_room_witness :
    get_chat [⟨["alice", "bob"], []⟩] "dave" "carol" = (200, []) :=
  get_chat_no_room [⟨["alice", "bob"], []⟩] "dave" "carol" (by decide)

/-- Claim C3, counterexample: a token frame whose token the verifier rejects is NOT
handled locally — no notice is replied and the handler task terminates
(`crashed = true`), because the `try` block catches only `WebSocketDisconnect`. -/
theorem invalid_token_crashes_cex :
    websocket_endpoint_step (fun t => if t == "good" then some "alice" else none) 0
      ⟨[0], [], []⟩ (.token "bad") 0 = ⟨⟨[0], [], []⟩, [], [], true⟩ := by
  decide

/-- Claim C3, amended: an invalid/expired token does leave the connection's
authentication state (and all other state) unchanged, but instead of a local notice
the verifier's `InvalidToken` error propagates out of the loop uncaught, terminating
the handler task: no reply is sent and the connection does not remain usable. -/
theorem invalid_token_no_notice (decode : String → Option String) (ws : Nat)
    (st : ServerState) (tok : String) (now : Nat) (h : decode tok = none) :
    websocket_endpoint_step decode ws st (.token tok) now = ⟨st, [], [], true⟩ := by
  simp [websocket_endpoint_step, h]

/-- Witness for `invalid_token_no_notice` with a concrete verifier and token. -/
theorem invalid_token_no_notice_witness :
    websocket_endpoint_step (fun _ => none) 3 ⟨[3], [⟨"carol", 3⟩], []⟩ (.token "x") 9 =
      ⟨⟨[3], [⟨"carol", 3⟩], []⟩, [], [], true⟩ :=
  invalid_token_no_notice (fun _ => none) 3 ⟨[3], [⟨"carol", 3⟩], []⟩ "x" 9 rfl

/-- Claim C4, counterexample: connection `0` is registered and authorized as
`"mallory"`; a token frame with an invalid token terminates the handler
(`crashed = true`) while the registry still holds the connection's entries —
cleanup did NOT run on this exit path. -/
theorem crash_exit_skips_cleanup_cex :
    (websocket_endpoint_step (fun _ => none) 0 ⟨[0], [⟨"mallory", 0⟩], []⟩
        (.token "bad") 0).crashed = true ∧
    (websocket_endpoint_step (fun _ => none) 0 ⟨[0], [⟨"mallory", 0⟩], []⟩
        (.token "bad") 0).state.authorized_connections = [⟨"mallory", 0⟩] ∧
    (websocket_endpoint_step (fun _ => none) 0 ⟨[0], [⟨"mallory", 0⟩], []⟩
        (.token "bad") 0).state.active_connections = [0] := by
  refine ⟨rfl, rfl, rfl⟩

/-- Claim C4, amended: registry cleanup runs only on the `WebSocketDisconnect` exit
path — there `manager.disconnect` removes every registry entry of the handle — while
an exception raised mid-processing (e.g. a token-verification failure) terminates the
handler with the registry state untouched, so cleanup is NOT guaranteed on every exit
path. -/
theorem cleanup_only_on_disconnect_exit (decode : String → Option String)
    (st : ServerState) (ws : Nat) (tok : String) (now : Nat) (h : decode tok = none) :
    ((∀ d ∈ (manager_disconnect st ws).authorized_connections, d.websocket ≠ ws) ∧
      ws ∉ (manager_disconnect st ws).active_connections) ∧
    (websocket_endpoint_step decode ws st (.token tok) now).state = st ∧
    (websocket_endpoint_step decode ws st (.token tok) now).crashed = true := by
  refine ⟨⟨?_, ?_⟩, ?_, ?_⟩
  · intro d hd
    have := (List.mem_filter.mp hd).2
    simpa using this
  · intro hmem
    have := (List.mem_filter.mp hmem).2
    simp at this
  · simp [websocket_endpoint_step, h]
  · simp [websocket_endpoint_step, h]

/-- Witness for `cleanup_only_on_disconnect_exit` at a concrete state. -/
theorem cleanup_only_on_disconnect_exit_witness :
    ((∀ d ∈ (manager_disconnect ⟨[5], [⟨"alice", 5⟩], []⟩ 5).authorized_connections,
        d.websocket ≠ 5) ∧
      5 ∉ (manager_disconnect ⟨[5], [⟨"alice", 5⟩], []⟩ 5).active_connections) ∧
    (websocket_endpoint_step (fun _ => none) 5 ⟨[5], [⟨"alice", 5⟩], []⟩
        (.token "bad") 1).state = ⟨[5], [⟨"alice", 5⟩], []⟩ ∧
    (websocket_endpoint_step (fun _ => none) 5 ⟨[5], [⟨"alice", 5⟩], []⟩
        (.token "bad") 1).crashed = true :=
  cleanup_only_on_disconnect_exit (fun _ => none) ⟨[5], [⟨"alice", 5⟩], []⟩ 5 "bad" 1 rfl

/-- Claim C5, counterexample: `"bob"` has a live authorized connection (`2`); alice's
send is pushed to it AND the message is persisted into the room store — live delivery
and storage are not mutually exclusive. -/
theorem live_delivery_also_persists_cex :
    (send_personal_message ⟨[1, 2], [⟨"alice", 1⟩, ⟨"bob", 2⟩], []⟩
        "bob" "alice" "hi" 7).pushes = [(2, "hi")] ∧
    (send_personal_message ⟨[1, 2], [⟨"alice", 1⟩, ⟨"bob", 2⟩], []⟩
        "bob" "alice" "hi" 7).state.chat_rooms =
      [⟨["alice", "bob"], [⟨"alice", "bob", "hi", 7⟩]⟩] := by
  refine ⟨rfl, by decide⟩

/-- Claim C5, amended: when the receiver has a live authenticated connection the text
is pushed directly to it, and the message is ALSO persisted to the room store — the
router appends to the store on every send, regardless of live-delivery outcome. -/
theorem route_always_persists (st : ServerState) (receiver sender text : String)
    (now : Nat) (d : AuthEntry) (h : find_live_connection st receiver = some d) :
    (send_personal_message st receiver sender text now).pushes = [(d.websocket, text)] ∧
    (send_personal_message st receiver sender text now).state.chat_rooms =
      append_message st.chat_rooms sender receiver text now := by
  constructor
  · simp [send_personal_message, h]
  · rfl

/-- Witness for `route_always_persists`: bob live on connection 2. -/
theorem route_always_persists_witness :
    (send_personal_message ⟨[1, 2], [⟨"alice", 1⟩, ⟨"bob", 2⟩], []⟩
        "bob" "alice" "yo" 4).pushes = [((⟨"bob", 2⟩ : AuthEntry).websocket, "yo")] ∧
    (send_personal_message ⟨[1, 2], [⟨"alice", 1⟩, ⟨"bob", 2⟩], []⟩
        "bob" "alice" "yo" 4).state.chat_rooms =
      append_message [] "alice" "bob" "yo" 4 :=
  route_always_persists ⟨[1, 2], [⟨"alice", 1⟩, ⟨"bob", 2⟩], []⟩ "bob" "alice" "yo" 4
    ⟨"bob", 2⟩ (by decide)

/-- Helper: on a room with a last message and a member other than `user`, the loop
body of `chat_users` produces the entry built from the first such member and the
last message, flagged by whether `user` authored it. -/
theorem room_entry_eq (user : String) (r : Room) (h1 : r.messages ≠ [])
    (h2 : (r.members.filter (fun el => el != user)) ≠ []) :
    room_entry user r =
      some ⟨(r.members.filter (fun el => el != user)).headD "",
        ⟨(r.messages.getLastD default).message, (r.messages.getLastD default).time,
         (r.messages.getLastD default).msg_from == user⟩⟩ := by
  unfold room_entry
  cases hl : r.messages.getLast? with
  | none => exact absurd (by simpa using hl) h1
  | some lm =>
    cases hh : (r.members.filter (fun el => el != user)).head? with
    | none => exact absurd (by simpa using hh) h2
    | some peer =>
      simp [List.getLastD_eq_getLast?, List.headD_eq_head?, hl, hh]

/-- Helper: when every room in the list admits an entry, the `chat_users` loop
returns the in-order list of those entries. -/
theorem process_chats_eq (user : String) (l : List Room)
    (h : ∀ r ∈ l, r.messages ≠ [] ∧ (r.members.filter (fun el => el != user)) ≠ []) :
    process_chats user l =
      some (l.map (fun r =>
        ⟨(r.members.filter (fun el => el != user)).headD "",
         ⟨(r.messages.getLastD default).message, (r.messages.getLastD default).time,
          (r.messages.getLastD default).msg_from == user⟩⟩)) := by
  induction l with
  | nil => rfl
  | cons r rest ih =>
    have hr := h r (List.mem_cons_self r rest)
    rw [process_chats, room_entry_eq user r hr.1 hr.2,
      ih (fun x hx => h x (List.mem_cons_of_mem r hx))]
    simp

/-- Claim C8: for every room the requester participates in (and whose data is
well-formed: a non-empty message list and a member other than the requester),
`chat_users` returns, in store order, the counterpart identity — the first member
that is not the requester — together with the room's most recent message, flagged
`is_myself` exactly when its `from` field equals the requester. -/
theorem chat_users_entries (store : List Room) (user : String)
    (h : ∀ r ∈ store, r.members.contains user = true →
        r.messages ≠ [] ∧ (r.members.filter (fun el => el != user)) ≠ []) :
    chat_users store user =
      some ((store.filter (fun r => r.members.contains user)).map (fun r =>
        ⟨(r.members.filter (fun el => el != user)).headD "",
         ⟨(r.messages.getLastD default).message, (r.messages.getLastD default).time,
          (r.messages.getLastD default).msg_from == user⟩⟩)) := by
  unfold chat_users
  exact process_chats_eq user _ (fun r hr =>
    h r (List.mem_filter.mp hr).1 (by simpa using (List.mem_filter.mp hr).2))

/-- Witness for `chat_users_entries`: one {alice, bob} room with a single message
from alice; requester alice gets counterpart "bob" and `is_myself = true`. -/
theorem chat_users_entries_witness :
    chat_users [⟨["alice", "bob"], [⟨"alice", "bob", "hi", 5⟩]⟩] "alice" =
      some [⟨"bob", ⟨"hi", 5, true⟩⟩] :=
  (chat_users_entries [⟨["alice", "bob"], [⟨"alice", "bob", "hi", 5⟩]⟩] "alice"
    (by decide)).trans (by decide)

/-- Helper: one room failing the loop body aborts the whole `chat_users` loop. -/
theorem process_chats_none (user : String) (l : List Room) (r : Room) (hr : r ∈ l)
    (h : room_entry user r = none) : process_chats user l = none := by
  induction l with
  | nil => cases hr
  | cons x rest ih =>
    rw [process_chats]
    rcases List.mem_cons.mp hr with h1 | h1
    · subst h1
      rw [h]
    · cases hx : room_entry user x with
      | none => rfl
      | some e => rw [ih h1]

/-- Claim C10: `chat_users` reads `chat['messages'][-1]` with no emptiness guard, so
it is safe only when every room it reaches is non-empty: any stored room that
contains the requester but has an empty message list makes the endpoint fail with an
out-of-bounds access (modelled as `none`). -/
theorem chat_users_unsafe_on_empty_room (store : List Room) (user : String) (r : Room)
    (hr : r ∈ store) (hm : r.members.contains user = true) (he : r.messages = []) :
    chat_users store user = none := by
  unfold chat_users
  refine process_chats_none user _ r (List.mem_filter.mpr ⟨hr, ?_⟩) ?_
  · simpa using hm
  · unfold room_entry
    rw [he]
    rfl

/-- Witness for `chat_users_unsafe_on_empty_room`: a store whose only room has the
requester as a member and no messages. -/
theorem chat_users_unsafe_on_empty_room_witness :
    chat_users [⟨["alice", "bob"], []⟩] "alice" = none :=
  chat_users_unsafe_on_empty_room [⟨["alice", "bob"], []⟩] "alice"
    ⟨["alice", "bob"], []⟩ (List.mem_singleton.mpr rfl) (by decide) rfl

end ChatApp
